import Mathlib

/- Verification of the enphase-envoy-local-monitoring poller
   (src/influxEnvoyStats/influxEnvoyStats.go, with the second client
   generation in src/unnamed/part_000 agreeing on everything modelled
   here except the database client library).

   Modelling conventions:
   * JSON documents are an inductive AST; JSON numbers are carried as
     exact rationals, so Go float64 values are idealised as Rat and the
     syntactic integer check of encoding/json for int64 targets is
     modelled by the value-level check den = 1 plus the int64 range.
   * Go struct decoding (encoding/json) matches JSON keys to struct
     fields ASCII-case-insensitively, skips unknown keys, treats a null
     value as a no-op, and reports a type mismatch as an error; the
     embedding reproduces this with an explicit fold over the object
     key/value list (later duplicate keys overwrite earlier ones).
   * Network I/O, URL parsing and the external database are modelled as
     explicit parameters (Fetched, parseOk, writeOk) and the database
     contents as an explicit list of points inside ProcState. -/

namespace InfluxEnvoyStats

/- ASCII case folding used by encoding/json when matching JSON object
   keys against Go struct field names. -/
def foldName (s : String) : String := String.mk (s.data.map Char.toLower)

/- JSON values (the device's wire format). -/
inductive Json where
  | null : Json
  | bool : Bool → Json
  | num : Rat → Json
  | str : String → Json
  | arr : List Json → Json
  | obj : List (String × Json) → Json

/- Error taxonomy of one poll/write cycle, per the spec's
   NetworkError / DecodeError / WriteError classification; clientError
   is the influx client constructor failing (bad address). -/
inductive PollErr where
  | networkError : PollErr
  | decodeError : PollErr
  | clientError : PollErr
  | writeError : PollErr
deriving DecidableEq

/- type Eim: one reading (production or consumption) as decoded from the
   device JSON.  Field order and names follow the Go struct. -/
structure Eim where
  MeasurementType : String
  ReadingTime : Int
  WNow : Rat
  WhLifetime : Rat
  VarhLeadLifetime : Rat
  VarhLagLifetime : Rat
  VahLifetime : Rat
  RmsCurrent : Rat
  RmsVoltage : Rat
  ReactPwr : Rat
  ApprntPwr : Rat
  PwrFactor : Rat
  WhToday : Rat
  WhLastSevenDays : Rat
  VahToday : Rat
  VarhLeadToday : Rat
  VarhLagToday : Rat
deriving DecidableEq

/- type Inverters: the inverter summary heading the production array. -/
structure Inverters where
  ActiveCount : Int
deriving DecidableEq

/- Go zero values, as produced by Eim{} and Inverters{}. -/
def zeroEim : Eim :=
  { MeasurementType := ""
    ReadingTime := 0
    WNow := 0
    WhLifetime := 0
    VarhLeadLifetime := 0
    VarhLagLifetime := 0
    VahLifetime := 0
    RmsCurrent := 0
    RmsVoltage := 0
    ReactPwr := 0
    ApprntPwr := 0
    PwrFactor := 0
    WhToday := 0
    WhLastSevenDays := 0
    VahToday := 0
    VarhLeadToday := 0
    VarhLagToday := 0 }

def zeroInverters : Inverters := { ActiveCount := 0 }

/- encoding/json decoding of a JSON number into an int64 target:
   the value must be integral and fit in 64 signed bits. -/
def int64OfRat (q : Rat) : Option Int :=
  if q.den = 1 ∧ -(2 ^ 63) ≤ q.num ∧ q.num < 2 ^ 63 then some q.num else none

/- Decode one JSON value into a float64 field: null is a no-op, a
   number overwrites, anything else is a type-mismatch error. -/
def setNumField (e : Eim) (v : Json) (upd : Eim → Rat → Eim) : Except PollErr Eim :=
  match v with
  | Json.null => Except.ok e
  | Json.num q => Except.ok (upd e q)
  | _ => Except.error PollErr.decodeError

/- Process one key/value pair of a reading object, exactly as
   encoding/json does for the Eim struct: the key is matched against
   the field names case-insensitively, unknown keys are skipped. -/
def eimSetKV (e : Eim) (k : String) (v : Json) : Except PollErr Eim :=
  match foldName k with
  | "measurementtype" =>
    match v with
    | Json.null => Except.ok e
    | Json.str s => Except.ok { e with MeasurementType := s }
    | _ => Except.error PollErr.decodeError
  | "readingtime" =>
    match v with
    | Json.null => Except.ok e
    | Json.num q =>
      match int64OfRat q with
      | some n => Except.ok { e with ReadingTime := n }
      | none => Except.error PollErr.decodeError
    | _ => Except.error PollErr.decodeError
  | "wnow" => setNumField e v (fun e q => { e with WNow := q })
  | "whlifetime" => setNumField e v (fun e q => { e with WhLifetime := q })
  | "varhleadlifetime" => setNumField e v (fun e q => { e with VarhLeadLifetime := q })
  | "varhlaglifetime" => setNumField e v (fun e q => { e with VarhLagLifetime := q })
  | "vahlifetime" => setNumField e v (fun e q => { e with VahLifetime := q })
  | "rmscurrent" => setNumField e v (fun e q => { e with RmsCurrent := q })
  | "rmsvoltage" => setNumField e v (fun e q => { e with RmsVoltage := q })
  | "reactpwr" => setNumField e v (fun e q => { e with ReactPwr := q })
  | "apprntpwr" => setNumField e v (fun e q => { e with ApprntPwr := q })
  | "pwrfactor" => setNumField e v (fun e q => { e with PwrFactor := q })
  | "whtoday" => setNumField e v (fun e q => { e with WhToday := q })
  | "whlastsevendays" => setNumField e v (fun e q => { e with WhLastSevenDays := q })
  | "vahtoday" => setNumField e v (fun e q => { e with VahToday := q })
  | "varhleadtoday" => setNumField e v (fun e q => { e with VarhLeadToday := q })
  | "varhlagtoday" => setNumField e v (fun e q => { e with VarhLagToday := q })
  | _ => Except.ok e

/- Decode all key/value pairs of a reading object in order. -/
def eimObjFold (e : Eim) : List (String × Json) → Except PollErr Eim
  | [] => Except.ok e
  | (k, v) :: rest =>
    match eimSetKV e k v with
    | Except.error er => Except.error er
    | Except.ok e2 => eimObjFold e2 rest

/- json.Unmarshal of one JSON value into an existing Eim value. -/
def unmarshalEim (e : Eim) : Json → Except PollErr Eim
  | Json.null => Except.ok e
  | Json.obj kvs => eimObjFold e kvs
  | _ => Except.error PollErr.decodeError

/- The same machinery for the Inverters struct (field ActiveCount). -/
def invSetKV (i : Inverters) (k : String) (v : Json) : Except PollErr Inverters :=
  match foldName k with
  | "activecount" =>
    match v with
    | Json.null => Except.ok i
    | Json.num q =>
      match int64OfRat q with
      | some n => Except.ok { ActiveCount := n }
      | none => Except.error PollErr.decodeError
    | _ => Except.error PollErr.decodeError
  | _ => Except.ok i

def invObjFold (i : Inverters) : List (String × Json) → Except PollErr Inverters
  | [] => Except.ok i
  | (k, v) :: rest =>
    match invSetKV i k v with
    | Except.error er => Except.error er
    | Except.ok i2 => invObjFold i2 rest

def unmarshalInverters (i : Inverters) : Json → Except PollErr Inverters
  | Json.null => Except.ok i
  | Json.obj kvs => invObjFold i kvs
  | _ => Except.error PollErr.decodeError

/- Decode a JSON array element-wise into fresh zero Eim values, as
   json.Unmarshal does for a []Eim target. -/
def decodeEims : List Json → Except PollErr (List Eim)
  | [] => Except.ok []
  | x :: rest =>
    match unmarshalEim zeroEim x with
    | Except.error er => Except.error er
    | Except.ok r =>
      match decodeEims rest with
      | Except.error er => Except.error er
      | Except.ok rs => Except.ok (r :: rs)

/- Decoding into a json.RawMessage field: the raw sub-document of the
   last key matching the field name case-insensitively; none when the
   key is absent (the RawMessage stays nil). -/
def rawLast (target : String) (kvs : List (String × Json)) : Option Json :=
  kvs.foldl (fun acc kv => if foldName kv.1 = target then some kv.2 else acc) none

/- json.Unmarshal of the device document into the anonymous struct with
   the three RawMessage fields Production, Consumption, Storage. -/
def unmarshalTop (j : Json) : Except PollErr (Option Json × Option Json × Option Json) :=
  match j with
  | Json.null => Except.ok (none, none, none)
  | Json.obj kvs =>
    Except.ok (rawLast "production" kvs, rawLast "consumption" kvs, rawLast "storage" kvs)
  | _ => Except.error PollErr.decodeError

/- json.Unmarshal of the Production raw message into
   productionObj := []interface(pointer to Inverters, pointer to Eim):
   a nil RawMessage is a syntax error; null is a no-op; array elements
   are decoded positionally into the two targets, extra elements decode
   into fresh generic values (never failing on an already-parsed AST),
   and a shorter array truncates the slice without touching the
   remaining targets, so fewer than 2 elements is NOT an error. -/
def unmarshalProduction : Option Json → Except PollErr (Inverters × Eim)
  | none => Except.error PollErr.decodeError
  | some Json.null => Except.ok (zeroInverters, zeroEim)
  | some (Json.arr []) => Except.ok (zeroInverters, zeroEim)
  | some (Json.arr [a]) =>
    match unmarshalInverters zeroInverters a with
    | Except.error er => Except.error er
    | Except.ok i => Except.ok (i, zeroEim)
  | some (Json.arr (a :: b :: _)) =>
    match unmarshalInverters zeroInverters a with
    | Except.error er => Except.error er
    | Except.ok i =>
      match unmarshalEim zeroEim b with
      | Except.error er => Except.error er
      | Except.ok e => Except.ok (i, e)
  | some _ => Except.error PollErr.decodeError

/- json.Unmarshal of the Consumption raw message into a []Eim. -/
def unmarshalConsumption : Option Json → Except PollErr (List Eim)
  | none => Except.error PollErr.decodeError
  | some Json.null => Except.ok []
  | some (Json.arr xs) => decodeEims xs
  | some _ => Except.error PollErr.decodeError

/- Result of the HTTP GET against the device: request/transport/read
   failure, a body that is not valid JSON, or a parsed document. -/
inductive Fetched where
  | netFail : Fetched
  | badBody : Fetched
  | doc : Json → Fetched

/- pollEnvoy, with the network interaction abstracted into the Fetched
   argument: decode the top-level document, then production, then
   consumption, propagating the first error.  The Printf diagnostics of
   the source are pure output and are not modelled. -/
def pollEnvoyDecode (j : Json) : Except PollErr (Eim × List Eim) :=
  match unmarshalTop j with
  | Except.error er => Except.error er
  | Except.ok (prodRaw, consRaw, _storageRaw) =>
    match unmarshalProduction prodRaw with
    | Except.error er => Except.error er
    | Except.ok (_inverters, prodReadings) =>
      match unmarshalConsumption consRaw with
      | Except.error er => Except.error er
      | Except.ok consumptionReadings => Except.ok (prodReadings, consumptionReadings)

def pollEnvoy (fetch : Fetched) : Except PollErr (Eim × List Eim) :=
  match fetch with
  | Fetched.netFail => Except.error PollErr.networkError
  | Fetched.badBody => Except.error PollErr.decodeError
  | Fetched.doc j => pollEnvoyDecode j

/- Command line configuration (the Context struct's flag fields);
   loopInterval is a time.Duration, an int64 nanosecond count. -/
structure Config where
  envoyHost : String
  influxAddr : String
  dbName : String
  dbUser : String
  dbPw : String
  measurementName : String
  loopInterval : Int

/- The lazily constructed influx client handle. -/
structure InfluxClient where
  addr : String
  username : String
  password : String
deriving DecidableEq

/- One time-series point, at the batch precision of one second: the
   point time is the epoch second time.Unix(ReadingTime, 0). -/
structure Point where
  measurement : String
  tags : List (String × String)
  fields : List (String × Rat)
  time : Int
deriving DecidableEq

/- client.NewPoint(measurementName, tags, fields, createdTime) as built
   in the writeToInflux loop body. -/
def mkPoint (measurementName : String) (reading : Eim) : Point :=
  { measurement := measurementName
    tags := [("type", reading.MeasurementType)]
    fields := [("watts", reading.WNow)]
    time := reading.ReadingTime }

/- Process-lifetime mutable state: the lazily initialised client and
   the external database contents (the observable effect of writes). -/
structure ProcState where
  influxClient : Option InfluxClient
  store : List Point
deriving DecidableEq

/- writeToInflux: build one point per reading over
   append(consumptionReadings, prodReadings), lazily construct the
   client (parseOk models whether client.NewHTTPClient accepts the
   configured address, a pure function of that address), then write the
   batch (writeOk models the external database accepting it). -/
def writeToInflux (cfg : Config) (parseOk : String → Bool) (writeOk : Bool)
    (st : ProcState) (prodReadings : Eim) (consumptionReadings : List Eim) :
    Except PollErr Unit × ProcState :=
  let pts := (consumptionReadings ++ [prodReadings]).map (mkPoint cfg.measurementName)
  match st.influxClient with
  | some _ =>
    if writeOk then (Except.ok (), { st with store := st.store ++ pts })
    else (Except.error PollErr.writeError, st)
  | none =>
    if parseOk cfg.influxAddr then
      let st2 : ProcState :=
        { st with influxClient := some ⟨cfg.influxAddr, cfg.dbUser, cfg.dbPw⟩ }
      if writeOk then (Except.ok (), { st2 with store := st2.store ++ pts })
      else (Except.error PollErr.writeError, st2)
    else (Except.error PollErr.clientError, st)

/- poll: fetch and decode, then write; the first error aborts the
   cycle and is returned. -/
def poll (cfg : Config) (parseOk : String → Bool) (writeOk : Bool)
    (fetch : Fetched) (st : ProcState) : Except PollErr Unit × ProcState :=
  match pollEnvoy fetch with
  | Except.error er => (Except.error er, st)
  | Except.ok (prodReadings, consumptionReadings) =>
    writeToInflux cfg parseOk writeOk st prodReadings consumptionReadings

/- Observable fate of the process. -/
inductive Outcome where
  | running : Outcome
  | exitOk : Outcome
  | exitPanic : Outcome
deriving DecidableEq

/- Observable trace of main: cycles run so far, error lines printed by
   the repeating loop, the process state, and whether the process is
   still looping or has exited. -/
structure MainTrace where
  cyclesRun : Nat
  errorsPrinted : Nat
  st : ProcState
  outcome : Outcome
deriving DecidableEq

def initState : ProcState := { influxClient := none, store := [] }

def initTrace : MainTrace :=
  { cyclesRun := 0, errorsPrinted := 0, st := initState, outcome := Outcome.running }

/- Environment input of the n-th poll cycle: what the device fetch
   yields and whether the database accepts the write. -/
structure CycleInput where
  fetch : Fetched
  writeOk : Bool

/- Body of the repeating loop's ticker case: run poll, print the error
   if any, keep looping.  The quit channel of the source is never
   signalled, so the loop has no exit. -/
def tickStep (cfg : Config) (parseOk : String → Bool) (inputs : Nat → CycleInput)
    (t : MainTrace) : MainTrace :=
  let inp := inputs t.cyclesRun
  let r := poll cfg parseOk inp.writeOk inp.fetch t.st
  { cyclesRun := t.cyclesRun + 1
    errorsPrinted := t.errorsPrinted +
      (match r.1 with | Except.error _ => 1 | Except.ok _ => 0)
    st := r.2
    outcome := t.outcome }

/- State of the repeating loop after n ticks of the ticker.  NewTicker
   delivers its first tick one full interval after creation, so at tick
   count 0 (process start) no cycle has run. -/
def runTicks (cfg : Config) (parseOk : String → Bool) (inputs : Nat → CycleInput) :
    Nat → MainTrace
  | 0 => initTrace
  | n + 1 => tickStep cfg parseOk inputs (runTicks cfg parseOk inputs n)

/- main after flag parsing: the repeating branch when loopInterval > 0
   (observed after a given number of elapsed ticks), otherwise the
   one-shot branch: a single poll, panicking on error. -/
def mainRun (cfg : Config) (parseOk : String → Bool) (inputs : Nat → CycleInput)
    (ticks : Nat) : MainTrace :=
  if cfg.loopInterval > 0 then runTicks cfg parseOk inputs ticks
  else
    let inp := inputs 0
    let r := poll cfg parseOk inp.writeOk inp.fetch initState
    { cyclesRun := 1
      errorsPrinted := 0
      st := r.2
      outcome := match r.1 with | Except.ok _ => Outcome.exitOk | Except.error _ => Outcome.exitPanic }

/- One write invocation's environment and arguments, for iterating
   writeToInflux across a process lifetime. -/
structure WriteJob where
  writeOk : Bool
  prodReadings : Eim
  consumptionReadings : List Eim

def runWrites (cfg : Config) (parseOk : String → Bool) :
    List WriteJob → ProcState → ProcState
  | [], st => st
  | j :: rest, st =>
    runWrites cfg parseOk rest
      (writeToInflux cfg parseOk j.writeOk st j.prodReadings j.consumptionReadings).2

/- Spec-side field extraction for the amended C4: the value of one Eim
   field is determined by the last key of the object whose folded name
   equals the folded field name, if that value has the field's type;
   otherwise the field keeps its previous value. -/
def pickStr (target : String) (d : String) : List (String × Json) → String
  | [] => d
  | (k, v) :: rest =>
    if foldName k = target then
      match v with
      | Json.str s => pickStr target s rest
      | _ => pickStr target d rest
    else pickStr target d rest

def pickInt (target : String) (d : Int) : List (String × Json) → Int
  | [] => d
  | (k, v) :: rest =>
    if foldName k = target then
      match v with
      | Json.num q =>
        match int64OfRat q with
        | some n => pickInt target n rest
        | none => pickInt target d rest
      | _ => pickInt target d rest
    else pickInt target d rest

def pickNum (target : String) (d : Rat) : List (String × Json) → Rat
  | [] => d
  | (k, v) :: rest =>
    if foldName k = target then
      match v with
      | Json.num q => pickNum target q rest
      | _ => pickNum target d rest
    else pickNum target d rest

/- The Eim value the amended C4 predicts for a decoded reading object:
   every field selected independently by pickStr/pickInt/pickNum. -/
def eimFromKVs (e : Eim) (kvs : List (String × Json)) : Eim :=
  { MeasurementType := pickStr "measurementtype" e.MeasurementType kvs
    ReadingTime := pickInt "readingtime" e.ReadingTime kvs
    WNow := pickNum "wnow" e.WNow kvs
    WhLifetime := pickNum "whlifetime" e.WhLifetime kvs
    VarhLeadLifetime := pickNum "varhleadlifetime" e.VarhLeadLifetime kvs
    VarhLagLifetime := pickNum "varhlaglifetime" e.VarhLagLifetime kvs
    VahLifetime := pickNum "vahlifetime" e.VahLifetime kvs
    RmsCurrent := pickNum "rmscurrent" e.RmsCurrent kvs
    RmsVoltage := pickNum "rmsvoltage" e.RmsVoltage kvs
    ReactPwr := pickNum "reactpwr" e.ReactPwr kvs
    ApprntPwr := pickNum "apprntpwr" e.ApprntPwr kvs
    PwrFactor := pickNum "pwrfactor" e.PwrFactor kvs
    WhToday := pickNum "whtoday" e.WhToday kvs
    WhLastSevenDays := pickNum "whlastsevendays" e.WhLastSevenDays kvs
    VahToday := pickNum "vahtoday" e.VahToday kvs
    VarhLeadToday := pickNum "varhleadtoday" e.VarhLeadToday kvs
    VarhLagToday := pickNum "varhlagtoday" e.VarhLagToday kvs }

/- Concrete device documents and configurations used to instantiate the
   theorems below on closed inputs. -/

def invJ0 : Json := Json.obj [("activeCount", Json.num 3)]

def prodObjJ : Json :=
  Json.obj [("measurementType", Json.str ("production")), ("readingTime", Json.num 1700000000),
    ("wNow", Json.num 250)]

def consObjJ : Json :=
  Json.obj [("measurementType", Json.str ("total-consumption")),
    ("readingTime", Json.num 1700000001), ("wNow", Json.num 321)]

def validKvs : List (String × Json) :=
  [("production", Json.arr [invJ0, prodObjJ]),
   ("consumption", Json.arr [consObjJ]),
   ("storage", Json.arr [])]

def validDoc : Json := Json.obj validKvs

def shortKvs : List (String × Json) :=
  [("production", Json.arr [invJ0]), ("consumption", Json.arr []), ("storage", Json.null)]

def shortDoc : Json := Json.obj shortKvs

def nullSecondKvs : List (String × Json) :=
  [("production", Json.arr [Json.obj [], Json.null]), ("consumption", Json.arr []),
   ("storage", Json.null)]

def nullSecondDoc : Json := Json.obj nullSecondKvs

def badSecondKvs : List (String × Json) :=
  [("production", Json.arr [Json.obj [], Json.num 5]), ("consumption", Json.arr []),
   ("storage", Json.null)]

def badSecondDoc : Json := Json.obj badSecondKvs

def prodEim : Eim :=
  { zeroEim with MeasurementType := "production", ReadingTime := 1700000000, WNow := 250 }

def consEim : Eim :=
  { zeroEim with MeasurementType := "total-consumption", ReadingTime := 1700000001, WNow := 321 }

def cfgRepeating : Config :=
  { envoyHost := "envoy", influxAddr := "http://localhost:8086", dbName := "solar",
    dbUser := "user", dbPw := "pw", measurementName := "readings",
    loopInterval := 1000000000 }

def cfgOneShot : Config := { cfgRepeating with loopInterval := 0 }

def cfgNegative : Config := { cfgRepeating with loopInterval := -5 }

def parseAll : String → Bool := fun _ => true

def inputsNetFail : Nat → CycleInput := fun _ => { fetch := Fetched.netFail, writeOk := true }

def inputsGood : Nat → CycleInput := fun _ => { fetch := Fetched.doc validDoc, writeOk := true }

/- Shape test used by the amended C3: a JSON value that is neither an
   object nor null (these are the decode-error shapes for an Eim
   target). -/
def nonObjNull : Json → Bool
  | Json.obj _ => false
  | Json.null => false
  | _ => true

/- Expected state after one successful write of prodEim and [consEim]
   from the fresh state, under cfgOneShot. -/
def stAfterWrite : ProcState :=
  { influxClient := some { addr := "http://localhost:8086", username := "user", password := "pw" }
    store :=
      [{ measurement := "readings", tags := [("type", "total-consumption")],
         fields := [("watts", 321)], time := 1700000001 },
       { measurement := "readings", tags := [("type", "production")],
         fields := [("watts", 250)], time := 1700000000 }] }

/- A later sequence of write invocations (one succeeding, one failing)
   used to instantiate the lazy-init claim. -/
def jobsW : List WriteJob :=
  [{ writeOk := true, prodReadings := prodEim, consumptionReadings := [] },
   { writeOk := false, prodReadings := consEim, consumptionReadings := [prodEim] }]

/- Reading object exercising case-insensitive matching, an unknown key,
   a duplicate key and absent fields, for the amended C4. -/
def kvsW : List (String × Json) :=
  [("wNow", Json.num 250), ("unknownKey", Json.str ("ignored")),
   ("MEASUREMENTTYPE", Json.str ("production")), ("wNow", Json.num 300)]

/- ------------------------------------------------------------------
   Lemmas
   ------------------------------------------------------------------ -/

theorem runTicks_cyclesRun (cfg : Config) (pOk : String → Bool) (inputs : Nat → CycleInput) :
    ∀ n, (runTicks cfg pOk inputs n).cyclesRun = n := by
  intro n
  induction n with
  | zero => rfl
  | succ m ih => simp [runTicks, tickStep, ih]

theorem runTicks_outcome (cfg : Config) (pOk : String → Bool) (inputs : Nat → CycleInput) :
    ∀ n, (runTicks cfg pOk inputs n).outcome = Outcome.running := by
  intro n
  induction n with
  | zero => rfl
  | succ m ih => simp [runTicks, tickStep, ih]

theorem mainRun_oneshot_eq (cfg : Config) (pOk : String → Bool) (inputs : Nat → CycleInput)
    (ticks : Nat) (h : ¬ 0 < cfg.loopInterval) :
    mainRun cfg pOk inputs ticks =
      { cyclesRun := 1
        errorsPrinted := 0
        st := (poll cfg pOk (inputs 0).writeOk (inputs 0).fetch initState).2
        outcome :=
          match (poll cfg pOk (inputs 0).writeOk (inputs 0).fetch initState).1 with
          | Except.ok _ => Outcome.exitOk
          | Except.error _ => Outcome.exitPanic } := by
  unfold mainRun
  rw [if_neg h]

theorem oneshot_behavior (cfg : Config) (pOk : String → Bool) (inputs : Nat → CycleInput)
    (ticks : Nat) (h : ¬ 0 < cfg.loopInterval) :
    (mainRun cfg pOk inputs ticks).cyclesRun = 1 ∧
    ((∃ er, (poll cfg pOk (inputs 0).writeOk (inputs 0).fetch initState).1 = Except.error er) →
      (mainRun cfg pOk inputs ticks).outcome = Outcome.exitPanic) ∧
    ((poll cfg pOk (inputs 0).writeOk (inputs 0).fetch initState).1 = Except.ok () →
      (mainRun cfg pOk inputs ticks).outcome = Outcome.exitOk) := by
  rw [mainRun_oneshot_eq cfg pOk inputs ticks h]
  refine ⟨rfl, ?_, ?_⟩
  · rintro ⟨er, he⟩
    simp [he]
  · intro hok
    simp [hok]

/- ------------------------------------------------------------------
   Scheduler claims
   ------------------------------------------------------------------ -/

/-- C5 counterexample: in repeating mode the code runs NO cycle at
startup; with zero elapsed ticker ticks the cycle count is 0 (the claim
demands an immediate cycle, i.e. at least 1), and the first cycle only
happens at the first tick. -/
theorem C5_no_immediate_cycle_counterexample :
    (mainRun cfgRepeating parseAll inputsGood 0).cyclesRun = 0 ∧
    (mainRun cfgRepeating parseAll inputsGood 1).cyclesRun = 1 := by
  constructor
  · rfl
  · rfl

/-- C5 (amended): in repeating mode (interval > 0) the scheduler runs no
cycle at startup; the first cycle runs at the first tick of the
fixed-period timer (one interval after startup) and exactly one cycle
runs per tick thereafter, the loop never exiting. -/
theorem C5_repeating_one_cycle_per_tick (cfg : Config) (pOk : String → Bool)
    (inputs : Nat → CycleInput) (n : Nat) (h : 0 < cfg.loopInterval) :
    (mainRun cfg pOk inputs n).cyclesRun = n ∧
    (mainRun cfg pOk inputs n).outcome = Outcome.running := by
  unfold mainRun
  rw [if_pos h]
  exact ⟨runTicks_cyclesRun cfg pOk inputs n, runTicks_outcome cfg pOk inputs n⟩

theorem C5_repeating_one_cycle_per_tick_witness :
    (mainRun cfgRepeating parseAll inputsGood 3).cyclesRun = 3 ∧
    (mainRun cfgRepeating parseAll inputsGood 3).outcome = Outcome.running :=
  C5_repeating_one_cycle_per_tick cfgRepeating parseAll inputsGood 3 (by decide)

/-- C6: in repeating mode, a cycle whose poll/write errors has the error
printed and swallowed: the loop is still running, the next tick runs a
fresh cycle (cycle count increases by one), and the printed error count
increases by one. -/
theorem C6_repeating_error_swallowed (cfg : Config) (pOk : String → Bool)
    (inputs : Nat → CycleInput) (n : Nat) (er : PollErr)
    (h : 0 < cfg.loopInterval)
    (herr :
      (poll cfg pOk (inputs (mainRun cfg pOk inputs n).cyclesRun).writeOk
        (inputs (mainRun cfg pOk inputs n).cyclesRun).fetch
        (mainRun cfg pOk inputs n).st).1 = Except.error er) :
    (mainRun cfg pOk inputs n).outcome = Outcome.running ∧
    (mainRun cfg pOk inputs (n + 1)).outcome = Outcome.running ∧
    (mainRun cfg pOk inputs (n + 1)).cyclesRun = (mainRun cfg pOk inputs n).cyclesRun + 1 ∧
    (mainRun cfg pOk inputs (n + 1)).errorsPrinted =
      (mainRun cfg pOk inputs n).errorsPrinted + 1 := by
  unfold mainRun at herr ⊢
  simp only [if_pos h] at herr ⊢
  refine ⟨runTicks_outcome cfg pOk inputs n, runTicks_outcome cfg pOk inputs (n + 1), ?_, ?_⟩
  · rw [runTicks_cyclesRun cfg pOk inputs (n + 1), runTicks_cyclesRun cfg pOk inputs n]
  · show (tickStep cfg pOk inputs (runTicks cfg pOk inputs n)).errorsPrinted = _
    simp only [tickStep, herr]

theorem C6_repeating_error_swallowed_witness :
    (mainRun cfgRepeating parseAll inputsNetFail 0).outcome = Outcome.running ∧
    (mainRun cfgRepeating parseAll inputsNetFail 1).outcome = Outcome.running ∧
    (mainRun cfgRepeating parseAll inputsNetFail 1).cyclesRun =
      (mainRun cfgRepeating parseAll inputsNetFail 0).cyclesRun + 1 ∧
    (mainRun cfgRepeating parseAll inputsNetFail 1).errorsPrinted =
      (mainRun cfgRepeating parseAll inputsNetFail 0).errorsPrinted + 1 :=
  C6_repeating_error_swallowed cfgRepeating parseAll inputsNetFail 0 PollErr.networkError
    (by decide) (by rfl)

/-- C7: in one-shot mode (interval = 0) exactly one poll/write cycle
runs; an error from that cycle makes the process panic (non-zero exit),
a successful cycle exits normally. -/
theorem C7_oneshot_single_cycle_fatal (cfg : Config) (pOk : String → Bool)
    (inputs : Nat → CycleInput) (ticks : Nat) (h : cfg.loopInterval = 0) :
    (mainRun cfg pOk inputs ticks).cyclesRun = 1 ∧
    ((∃ er, (poll cfg pOk (inputs 0).writeOk (inputs 0).fetch initState).1 = Except.error er) →
      (mainRun cfg pOk inputs ticks).outcome = Outcome.exitPanic) ∧
    ((poll cfg pOk (inputs 0).writeOk (inputs 0).fetch initState).1 = Except.ok () →
      (mainRun cfg pOk inputs ticks).outcome = Outcome.exitOk) :=
  oneshot_behavior cfg pOk inputs ticks (by omega)

theorem C7_oneshot_single_cycle_fatal_witness :
    (mainRun cfgOneShot parseAll inputsNetFail 0).cyclesRun = 1 ∧
    (mainRun cfgOneShot parseAll inputsNetFail 0).outcome = Outcome.exitPanic ∧
    (mainRun cfgOneShot parseAll inputsGood 0).outcome = Outcome.exitOk := by
  refine ⟨?_, ?_, ?_⟩
  · exact (C7_oneshot_single_cycle_fatal cfgOneShot parseAll inputsNetFail 0 (by decide)).1
  · exact (C7_oneshot_single_cycle_fatal cfgOneShot parseAll inputsNetFail 0 (by decide)).2.1
      ⟨PollErr.networkError, by rfl⟩
  · exact (C7_oneshot_single_cycle_fatal cfgOneShot parseAll inputsGood 0 (by decide)).2.2
      (by rfl)

/-- C10: any configured interval that is not positive (including
negative durations) takes the one-shot branch: exactly one poll/write
cycle runs, errors are fatal (panic), success exits normally. -/
theorem C10_nonpositive_interval_oneshot (cfg : Config) (pOk : String → Bool)
    (inputs : Nat → CycleInput) (ticks : Nat) (h : cfg.loopInterval ≤ 0) :
    (mainRun cfg pOk inputs ticks).cyclesRun = 1 ∧
    ((∃ er, (poll cfg pOk (inputs 0).writeOk (inputs 0).fetch initState).1 = Except.error er) →
      (mainRun cfg pOk inputs ticks).outcome = Outcome.exitPanic) ∧
    ((poll cfg pOk (inputs 0).writeOk (inputs 0).fetch initState).1 = Except.ok () →
      (mainRun cfg pOk inputs ticks).outcome = Outcome.exitOk) :=
  oneshot_behavior cfg pOk inputs ticks (by omega)

theorem C10_nonpositive_interval_oneshot_witness :
    (mainRun cfgNegative parseAll inputsNetFail 7).cyclesRun = 1 ∧
    (mainRun cfgNegative parseAll inputsNetFail 7).outcome = Outcome.exitPanic :=
  ⟨(C10_nonpositive_interval_oneshot cfgNegative parseAll inputsNetFail 7 (by decide)).1,
   (C10_nonpositive_interval_oneshot cfgNegative parseAll inputsNetFail 7 (by decide)).2.1
     ⟨PollErr.networkError, by rfl⟩⟩

/- ------------------------------------------------------------------
   Writer claims
   ------------------------------------------------------------------ -/

/-- C9: when pollEnvoy fails (network or decode), the cycle performs no
write at all: poll returns the same error and the process state —
including the external store and the client — is unchanged. -/
theorem C9_poll_error_no_write (cfg : Config) (pOk : String → Bool) (wOk : Bool)
    (fetch : Fetched) (st : ProcState) (er : PollErr)
    (h : pollEnvoy fetch = Except.error er) :
    poll cfg pOk wOk fetch st = (Except.error er, st) := by
  unfold poll
  rw [h]

theorem C9_poll_error_no_write_witness :
    poll cfgOneShot parseAll true Fetched.netFail initState =
      (Except.error PollErr.networkError, initState) :=
  C9_poll_error_no_write cfgOneShot parseAll true Fetched.netFail initState
    PollErr.networkError (by rfl)

/-- C2: a successful write appends exactly one point per reading to the
store, consumption readings first (in input order) and the production
reading last, each point carrying the single tag type = MeasurementType,
the single field watts = WNow, the epoch-second time ReadingTime, and
the configured measurement name; K = (number of consumption readings)
+ 1 points in total. -/
theorem C2_writeToInflux_points (cfg : Config) (pOk : String → Bool) (wOk : Bool)
    (st : ProcState) (prodReadings : Eim) (consumptionReadings : List Eim) (st2 : ProcState)
    (h : writeToInflux cfg pOk wOk st prodReadings consumptionReadings = (Except.ok (), st2)) :
    st2.store =
      st.store ++ (consumptionReadings ++ [prodReadings]).map (mkPoint cfg.measurementName) ∧
    ((consumptionReadings ++ [prodReadings]).map (mkPoint cfg.measurementName)).length =
      consumptionReadings.length + 1 ∧
    ∀ r, mkPoint cfg.measurementName r =
      { measurement := cfg.measurementName, tags := [("type", r.MeasurementType)],
        fields := [("watts", r.WNow)], time := r.ReadingTime } := by
  refine ⟨?_, by simp, fun r => rfl⟩
  unfold writeToInflux at h
  repeat' split at h
  all_goals try simp_all
  all_goals (rw [← h]; try simp)

theorem C2_writeToInflux_points_witness :
    stAfterWrite.store =
      initState.store ++ ([consEim] ++ [prodEim]).map (mkPoint cfgOneShot.measurementName) ∧
    ([consEim] ++ [prodEim]).map (mkPoint cfgOneShot.measurementName) =
      (([consEim] ++ [prodEim]).map (mkPoint cfgOneShot.measurementName)) ∧
    mkPoint cfgOneShot.measurementName prodEim =
      { measurement := cfgOneShot.measurementName,
        tags := [("type", prodEim.MeasurementType)],
        fields := [("watts", prodEim.WNow)], time := prodEim.ReadingTime } :=
  ⟨(C2_writeToInflux_points cfgOneShot parseAll true initState prodEim [consEim]
      stAfterWrite (by rfl)).1,
   rfl,
   (C2_writeToInflux_points cfgOneShot parseAll true initState prodEim [consEim]
      stAfterWrite (by rfl)).2.2 prodEim⟩

theorem writeToInflux_client_stable (cfg : Config) (pOk : String → Bool) (wOk : Bool)
    (st : ProcState) (p : Eim) (cs : List Eim) (c : InfluxClient)
    (h : st.influxClient = some c) :
    ((writeToInflux cfg pOk wOk st p cs).2).influxClient = some c := by
  simp only [writeToInflux, h]
  split <;> simp [h]

theorem runWrites_client_stable (cfg : Config) (pOk : String → Bool) (c : InfluxClient) :
    ∀ jobs st, st.influxClient = some c →
      (runWrites cfg pOk jobs st).influxClient = some c := by
  intro jobs
  induction jobs with
  | nil => intro st h; simpa [runWrites] using h
  | cons j rest ih =>
    intro st h
    rw [runWrites]
    exact ih _ (writeToInflux_client_stable cfg pOk j.writeOk st j.prodReadings
      j.consumptionReadings c h)

/-- C8: the database client is constructed at most once per process:
starting from a state with no client, the first write invocation (with a
parseable address) installs the client determined by the configuration,
and every later write invocation, whatever its data and outcome, leaves
that same client handle in place. -/
theorem C8_client_constructed_once (cfg : Config) (pOk : String → Bool) (wOk : Bool)
    (st : ProcState) (prodReadings : Eim) (consumptionReadings : List Eim)
    (hnone : st.influxClient = none) (hp : pOk cfg.influxAddr = true) :
    ((writeToInflux cfg pOk wOk st prodReadings consumptionReadings).2).influxClient =
      some { addr := cfg.influxAddr, username := cfg.dbUser, password := cfg.dbPw } ∧
    ∀ jobs,
      (runWrites cfg pOk jobs
        (writeToInflux cfg pOk wOk st prodReadings consumptionReadings).2).influxClient =
        some { addr := cfg.influxAddr, username := cfg.dbUser, password := cfg.dbPw } := by
  have h1 : ((writeToInflux cfg pOk wOk st prodReadings consumptionReadings).2).influxClient =
      some { addr := cfg.influxAddr, username := cfg.dbUser, password := cfg.dbPw } := by
    simp only [writeToInflux, hnone, hp]
    repeat' split
    all_goals simp_all
  exact ⟨h1, fun jobs => runWrites_client_stable cfg pOk _ jobs _ h1⟩

theorem C8_client_constructed_once_witness :
    ((writeToInflux cfgOneShot parseAll true initState prodEim [consEim]).2).influxClient =
      some { addr := "http://localhost:8086", username := "user", password := "pw" } ∧
    (runWrites cfgOneShot parseAll jobsW
      (writeToInflux cfgOneShot parseAll true initState prodEim [consEim]).2).influxClient =
      some { addr := "http://localhost:8086", username := "user", password := "pw" } :=
  ⟨(C8_client_constructed_once cfgOneShot parseAll true initState prodEim [consEim]
      (by rfl) (by rfl)).1,
   (C8_client_constructed_once cfgOneShot parseAll true initState prodEim [consEim]
      (by rfl) (by rfl)).2 jobsW⟩

/- ------------------------------------------------------------------
   Decode lemmas
   ------------------------------------------------------------------ -/

theorem decodeEims_ok_length : ∀ (xs : List Json) (ys : List Eim),
    decodeEims xs = Except.ok ys → ys.length = xs.length := by
  intro xs
  induction xs with
  | nil =>
    intro ys h
    rw [decodeEims] at h
    injection h with h2
    subst h2
    rfl
  | cons x rest ih =>
    intro ys h
    rw [decodeEims] at h
    cases hx : unmarshalEim zeroEim x with
    | error er => rw [hx] at h; simp at h
    | ok r =>
      rw [hx] at h
      cases hr : decodeEims rest with
      | error er => rw [hr] at h; simp at h
      | ok rs =>
        rw [hr] at h
        injection h with h2
        subst h2
        simp [ih rs hr]

theorem decodeEims_ok_get : ∀ (xs : List Json) (ys : List Eim),
    decodeEims xs = Except.ok ys →
    ∀ (i : Nat) (h1 : i < xs.length) (h2 : i < ys.length),
      unmarshalEim zeroEim (xs.get ⟨i, h1⟩) = Except.ok (ys.get ⟨i, h2⟩) := by
  intro xs
  induction xs with
  | nil => intro ys h i h1 h2; simp at h1
  | cons x rest ih =>
    intro ys h i h1 h2
    rw [decodeEims] at h
    cases hx : unmarshalEim zeroEim x with
    | error er => rw [hx] at h; simp at h
    | ok r =>
      rw [hx] at h
      cases hr : decodeEims rest with
      | error er => rw [hr] at h; simp at h
      | ok rs =>
        rw [hr] at h
        injection h with h2
        subst h2
        cases i with
        | zero => simpa using hx
        | succ m => exact ih rs hr m (by simpa using h1) (by simpa using h2)

theorem setNumField_err (e : Eim) (v : Json) (upd : Eim → Rat → Eim) (er : PollErr)
    (h : setNumField e v upd = Except.error er) : er = PollErr.decodeError := by
  unfold setNumField at h
  split at h <;> simp_all

theorem eimSetKV_err (e : Eim) (k : String) (v : Json) (er : PollErr)
    (h : eimSetKV e k v = Except.error er) : er = PollErr.decodeError := by
  unfold eimSetKV at h
  split at h
  all_goals first
    | exact setNumField_err _ _ _ _ h
    | simp_all
    | ((repeat' split at h) <;> simp_all)

theorem eimObjFold_err : ∀ (kvs : List (String × Json)) (e : Eim) (er : PollErr),
    eimObjFold e kvs = Except.error er → er = PollErr.decodeError := by
  intro kvs
  induction kvs with
  | nil => intro e er h; simp [eimObjFold] at h
  | cons kv rest ih =>
    intro e er h
    obtain ⟨k, v⟩ := kv
    rw [eimObjFold] at h
    cases hs : eimSetKV e k v with
    | error er2 =>
      rw [hs] at h
      injection h with h2
      subst h2
      exact eimSetKV_err e k v _ hs
    | ok e2 =>
      rw [hs] at h
      exact ih e2 er h

theorem unmarshalEim_err (e : Eim) (j : Json) (er : PollErr)
    (h : unmarshalEim e j = Except.error er) : er = PollErr.decodeError := by
  cases j with
  | obj kvs => exact eimObjFold_err kvs e er h
  | null => simp [unmarshalEim] at h
  | bool b => simp [unmarshalEim] at h; exact h.symm
  | num q => simp [unmarshalEim] at h; exact h.symm
  | str s => simp [unmarshalEim] at h; exact h.symm
  | arr xs => simp [unmarshalEim] at h; exact h.symm

theorem invSetKV_err (i : Inverters) (k : String) (v : Json) (er : PollErr)
    (h : invSetKV i k v = Except.error er) : er = PollErr.decodeError := by
  unfold invSetKV at h
  split at h
  all_goals first
    | simp_all
    | ((repeat' split at h) <;> simp_all)

theorem invObjFold_err : ∀ (kvs : List (String × Json)) (i : Inverters) (er : PollErr),
    invObjFold i kvs = Except.error er → er = PollErr.decodeError := by
  intro kvs
  induction kvs with
  | nil => intro i er h; simp [invObjFold] at h
  | cons kv rest ih =>
    intro i er h
    obtain ⟨k, v⟩ := kv
    rw [invObjFold] at h
    cases hs : invSetKV i k v with
    | error er2 =>
      rw [hs] at h
      injection h with h2
      subst h2
      exact invSetKV_err i k v _ hs
    | ok i2 =>
      rw [hs] at h
      exact ih i2 er h

theorem unmarshalInverters_err (i : Inverters) (j : Json) (er : PollErr)
    (h : unmarshalInverters i j = Except.error er) : er = PollErr.decodeError := by
  cases j with
  | obj kvs => exact invObjFold_err kvs i er h
  | null => simp [unmarshalInverters] at h
  | bool b => simp [unmarshalInverters] at h; exact h.symm
  | num q => simp [unmarshalInverters] at h; exact h.symm
  | str s => simp [unmarshalInverters] at h; exact h.symm
  | arr xs => simp [unmarshalInverters] at h; exact h.symm

theorem unmarshalEim_nonObjNull (e : Eim) (j : Json) (h : nonObjNull j = true) :
    unmarshalEim e j = Except.error PollErr.decodeError := by
  cases j <;> simp_all [nonObjNull, unmarshalEim]

/- ------------------------------------------------------------------
   Envoy client claims
   ------------------------------------------------------------------ -/

/-- C1: for every valid device document — top-level object with a
production key holding a two-element array (inverter-summary object then
a reading object), a consumption key holding an array of N reading
objects, and a storage key — pollEnvoy succeeds, returning the single
production Reading decoded from the second production element and
exactly N consumption Readings, in the device's order. -/
theorem C1_pollEnvoy_valid_document
    (kvs : List (String × Json)) (invJ prodJ storageJ : Json) (consJs : List Json)
    (inv : Inverters) (pe : Eim) (ces : List Eim)
    (hp : rawLast "production" kvs = some (Json.arr [invJ, prodJ]))
    (hc : rawLast "consumption" kvs = some (Json.arr consJs))
    (_hs : rawLast "storage" kvs = some storageJ)
    (_hio : ∃ l, invJ = Json.obj l)
    (_hpo : ∃ l, prodJ = Json.obj l)
    (_hco : ∀ c ∈ consJs, ∃ l, c = Json.obj l)
    (hi : unmarshalInverters zeroInverters invJ = Except.ok inv)
    (hpe : unmarshalEim zeroEim prodJ = Except.ok pe)
    (hces : decodeEims consJs = Except.ok ces) :
    pollEnvoy (Fetched.doc (Json.obj kvs)) = Except.ok (pe, ces) ∧
    ces.length = consJs.length ∧
    ∀ (i : Nat) (h1 : i < consJs.length) (h2 : i < ces.length),
      unmarshalEim zeroEim (consJs.get ⟨i, h1⟩) = Except.ok (ces.get ⟨i, h2⟩) := by
  refine ⟨?_, decodeEims_ok_length consJs ces hces, decodeEims_ok_get consJs ces hces⟩
  show pollEnvoyDecode (Json.obj kvs) = Except.ok (pe, ces)
  simp only [pollEnvoyDecode, unmarshalTop, hp, hc, unmarshalProduction, hi,
    unmarshalConsumption, hpe, hces]

theorem C1_pollEnvoy_valid_document_witness :
    pollEnvoy (Fetched.doc (Json.obj validKvs)) = Except.ok (prodEim, [consEim]) ∧
    ([consEim] : List Eim).length = ([consObjJ] : List Json).length ∧
    unmarshalEim zeroEim (([consObjJ] : List Json).get ⟨0, by decide⟩) =
      Except.ok (([consEim] : List Eim).get ⟨0, by decide⟩) := by
  have h := C1_pollEnvoy_valid_document validKvs invJ0 prodObjJ (Json.arr []) [consObjJ]
    { ActiveCount := 3 } prodEim [consEim] (by rfl) (by rfl) (by rfl)
    ⟨_, rfl⟩ ⟨_, rfl⟩
    (by intro c hcm; rw [List.mem_singleton] at hcm; subst hcm; exact ⟨_, rfl⟩)
    (by rfl) (by rfl) (by rfl)
  exact ⟨h.1, h.2.1, h.2.2 0 (by decide) (by decide)⟩

/-- C3 counterexample: a production array with a single element, and one
whose second element is null, both decode without error (the claim
demands a DecodeError for every production array with fewer than two
elements and for every non-object second element): the slice decode
truncates and the production Reading stays the zero value. -/
theorem C3_short_production_counterexample :
    rawLast "production" shortKvs = some (Json.arr [invJ0]) ∧
    pollEnvoy (Fetched.doc (Json.obj shortKvs)) = Except.ok (zeroEim, []) ∧
    rawLast "production" nullSecondKvs = some (Json.arr [Json.obj [], Json.null]) ∧
    pollEnvoy (Fetched.doc (Json.obj nullSecondKvs)) = Except.ok (zeroEim, []) :=
  ⟨rfl, rfl, rfl, rfl⟩

/-- C3 (amended): a production array whose second element is neither an
object nor null yields a DecodeError and no Readings, whatever the rest
of the document holds; a production array with fewer than two elements
(whose present element, if any, decodes as the inverter summary), and a
production array of any length whose second element is null (with a
first element decoding as the inverter summary), both decode without
error, leaving the production Reading at the zero value. -/
theorem C3_production_decode_amended
    (kvs : List (String × Json)) (prodRaw : Json)
    (hp : rawLast "production" kvs = some prodRaw) :
    (∀ a b rest, prodRaw = Json.arr (a :: b :: rest) → nonObjNull b = true →
      pollEnvoy (Fetched.doc (Json.obj kvs)) = Except.error PollErr.decodeError) ∧
    (∀ xs consRaw ces, prodRaw = Json.arr xs → xs.length < 2 →
      (xs = [] ∨ ∃ a i, xs = [a] ∧ unmarshalInverters zeroInverters a = Except.ok i) →
      rawLast "consumption" kvs = some consRaw →
      unmarshalConsumption (some consRaw) = Except.ok ces →
      pollEnvoy (Fetched.doc (Json.obj kvs)) = Except.ok (zeroEim, ces)) ∧
    (∀ a rest consRaw ces i, prodRaw = Json.arr (a :: Json.null :: rest) →
      unmarshalInverters zeroInverters a = Except.ok i →
      rawLast "consumption" kvs = some consRaw →
      unmarshalConsumption (some consRaw) = Except.ok ces →
      pollEnvoy (Fetched.doc (Json.obj kvs)) = Except.ok (zeroEim, ces)) := by
  refine ⟨?_, ?_, ?_⟩
  · intro a b rest hpr hb
    subst hpr
    show pollEnvoyDecode (Json.obj kvs) = Except.error PollErr.decodeError
    simp only [pollEnvoyDecode, unmarshalTop, hp, unmarshalProduction]
    cases hi : unmarshalInverters zeroInverters a with
    | error er =>
      have h2 := unmarshalInverters_err zeroInverters a er hi
      subst h2
      rfl
    | ok i => simp only [unmarshalEim_nonObjNull zeroEim b hb]
  · intro xs consRaw ces hpr hlen hshape hc hces
    subst hpr
    rcases hshape with rfl | ⟨a, i, rfl, hi⟩
    · show pollEnvoyDecode (Json.obj kvs) = Except.ok (zeroEim, ces)
      simp only [pollEnvoyDecode, unmarshalTop, hp, hc, unmarshalProduction, hces]
    · show pollEnvoyDecode (Json.obj kvs) = Except.ok (zeroEim, ces)
      simp only [pollEnvoyDecode, unmarshalTop, hp, hc, unmarshalProduction, hi, hces]
  · intro a rest consRaw ces i hpr hi hc hces
    subst hpr
    show pollEnvoyDecode (Json.obj kvs) = Except.ok (zeroEim, ces)
    simp only [pollEnvoyDecode, unmarshalTop, hp, hc, unmarshalProduction, hi,
      unmarshalEim, hces]

theorem C3_production_decode_amended_witness :
    pollEnvoy (Fetched.doc (Json.obj badSecondKvs)) = Except.error PollErr.decodeError ∧
    pollEnvoy (Fetched.doc (Json.obj shortKvs)) = Except.ok (zeroEim, []) ∧
    pollEnvoy (Fetched.doc (Json.obj nullSecondKvs)) = Except.ok (zeroEim, []) := by
  refine ⟨?_, ?_, ?_⟩
  · exact (C3_production_decode_amended badSecondKvs (Json.arr [Json.obj [], Json.num 5])
      (by rfl)).1 (Json.obj []) (Json.num 5) [] rfl rfl
  · exact (C3_production_decode_amended shortKvs (Json.arr [invJ0])
      (by rfl)).2.1 [invJ0] (Json.arr []) [] rfl (by decide)
      (Or.inr ⟨invJ0, { ActiveCount := 3 }, rfl, by rfl⟩) (by rfl) (by rfl)
  · exact (C3_production_decode_amended nullSecondKvs
      (Json.arr [Json.obj [], Json.null]) (by rfl)).2.2 (Json.obj []) [] (Json.arr []) []
      zeroInverters rfl (by rfl) (by rfl) (by rfl)

/-- C4 counterexample: the JSON key wnow does not match the field name
WNow case-sensitively, yet decoding the object populates WNow — fields
are not populated only by exact case-sensitive key match. -/
theorem C4_case_sensitivity_counterexample :
    unmarshalEim zeroEim (Json.obj [("wnow", Json.num 5)]) =
      Except.ok { zeroEim with WNow := 5 } ∧
    ("wnow" : String) ≠ "WNow" ∧
    ({ zeroEim with WNow := 5 } : Eim) ≠ zeroEim :=
  ⟨rfl, by decide, by decide⟩

theorem eimFromKVs_nil (e : Eim) : eimFromKVs e [] = e := rfl

theorem eimSetKV_fromKVs (e e1 : Eim) (k : String) (v : Json) (rest : List (String × Json))
    (h : eimSetKV e k v = Except.ok e1) :
    eimFromKVs e ((k, v) :: rest) = eimFromKVs e1 rest := by
  unfold eimSetKV at h
  split at h
  all_goals cases v <;> (repeat' split at h) <;>
    (try (injection h with h2; subst h2)) <;>
    simp_all [setNumField, eimFromKVs, pickStr, pickInt, pickNum]

theorem eimObjFold_fromKVs : ∀ (kvs : List (String × Json)) (e e2 : Eim),
    eimObjFold e kvs = Except.ok e2 → e2 = eimFromKVs e kvs := by
  intro kvs
  induction kvs with
  | nil =>
    intro e e2 h
    rw [eimObjFold] at h
    injection h with h2
    subst h2
    rfl
  | cons kv rest ih =>
    intro e e2 h
    obtain ⟨k, v⟩ := kv
    rw [eimObjFold] at h
    cases hs : eimSetKV e k v with
    | error er => rw [hs] at h; simp at h
    | ok e1 =>
      rw [hs] at h
      rw [eimSetKV_fromKVs e e1 k v rest hs]
      exact ih e1 e2 h

/-- C4 (amended): decoding a reading object populates each Reading field
from the JSON keys whose names match the field name case-insensitively
(ASCII fold, the last matching key of the right type winning); unknown
JSON keys are ignored, and a field with no matching key keeps its
previous value — the zero value of its type when decoding starts from
the fresh zero Reading. -/
theorem C4_decode_field_population_amended (kvs : List (String × Json)) (e e2 : Eim)
    (h : unmarshalEim e (Json.obj kvs) = Except.ok e2) :
    e2 = eimFromKVs e kvs :=
  eimObjFold_fromKVs kvs e e2 h

theorem C4_decode_field_population_amended_witness :
    ({ zeroEim with MeasurementType := "production", WNow := 300 } : Eim) =
      eimFromKVs zeroEim kvsW :=
  C4_decode_field_population_amended kvsW zeroEim
    { zeroEim with MeasurementType := "production", WNow := 300 } (by rfl)

end InfluxEnvoyStats
